import Mathlib

/-!
Verification development for the OM1 wallet-input plugins.

This file gives a shallow embedding, in Lean 4, of the wallet code under
`src/inputs/plugins/` (`wallet_base.py`, `wallet_ethereum.py`,
`wallet_solana.py`, `wallet_coinbase.py`) and proves the behavioural
claims about it.

Modelling conventions:
* Python `float` balance/amount arithmetic is modelled over `ℚ` (exact
  rationals).  The format specifier `%.5f` is modelled by round-half-even
  at five decimal digits (`rhe`, `renderQ5`), and `float(...)` applied to
  such a decimal string is modelled by `pyFloat`.
* Network and SDK calls (Web3, solana RPC, Coinbase CDP) are external
  collaborators; each method takes an explicit oracle record describing
  the responses the external world would give, and returns alongside its
  result the list of network calls it issued, in order.
* Reading `os.environ` is modelled by explicit environment records of
  `Option String` fields.
* A Python method that mutates `self` is modelled as a function from the
  wallet state to a pair of result and updated state; exceptions escaping
  a method are modelled with `Except String`.
-/

/-- Char of a decimal digit, used by the decimal printer. -/
def digitChar (d : ℕ) : Char := Char.ofNat (48 + d)

/-- Numeric value of a decimal digit character. -/
def digitVal (c : Char) : ℕ := c.toNat - 48

/-- Round-half-even of a rational to an integer: the rounding mode used by
the Python `%.5f` format specifier (applied here to the value scaled by
`10^5`). -/
def rhe (x : ℚ) : ℤ :=
  let f : ℤ := ⌊x⌋
  let frac : ℚ := x - (f : ℚ)
  if frac < 1/2 then f
  else if 1/2 < frac then f + 1
  else if f % 2 = 0 then f else f + 1

/-- The rational value denoted by formatting `q` with `%.5f`:
round-half-even at five decimal places. -/
def round5 (q : ℚ) : ℚ := (rhe (q * 100000) : ℚ) / 100000

/-- Decimal digits of `k` padded on the left with zeros to width five:
the fractional part of a `%.5f` rendering. -/
def pad5 (k : ℕ) : String :=
  let s := Nat.repr k
  String.mk (List.replicate (5 - s.length) (digitChar 0)) ++ s

/-- Model of the Python format expression `f"{q:.5f}"` on a rational. -/
def renderQ5 (q : ℚ) : String :=
  let n : ℤ := rhe (q * 100000)
  if n < 0 then
    "-" ++ Nat.repr ((-n).toNat / 100000) ++ "." ++ pad5 ((-n).toNat % 100000)
  else
    Nat.repr (n.toNat / 100000) ++ "." ++ pad5 (n.toNat % 100000)

/-- Value of a list of decimal digit characters, most significant first. -/
def parseNatList (l : List Char) : ℕ :=
  l.foldl (fun a c => a * 10 + digitVal c) 0

/-- Split a character list at the first dot character. -/
def splitDot (l : List Char) : List Char × List Char :=
  match l with
  | [] => ([], [])
  | c :: rest =>
    if c = Char.ofNat 46 then ([], rest)
    else
      let r := splitDot rest
      (c :: r.1, r.2)

/-- Whether a character list contains a dot. -/
def hasDot (l : List Char) : Bool :=
  match l with
  | [] => false
  | c :: rest => if c = Char.ofNat 46 then true else hasDot rest

/-- Model of Python `float(s)` on the non-negative fixed-decimal strings
produced by the wallet code (`f"{x:.5f}"` outputs). -/
def pyFloat (s : String) : ℚ :=
  if hasDot s.data then
    let p := splitDot s.data
    (parseNatList p.1 : ℚ) + (parseNatList p.2 : ℚ) / (10 ^ p.2.length)
  else (parseNatList s.data : ℚ)

/-- Model of Python `str.upper()` for ASCII strings. -/
def upChar (c : Char) : Char :=
  if 97 ≤ c.toNat ∧ c.toNat ≤ 122 then Char.ofNat (c.toNat - 32) else c

/-- Model of Python `str.upper()` on a string. -/
def strUpper (s : String) : String := String.mk (s.data.map upChar)

/-- A rational is a canonical five-decimal amount: the value denoted by
some `%.5f` output, that is, a non-negative integer count of
hundred-thousandths. -/
def canon5 (q : ℚ) : Prop := ∃ n : ℕ, q = (n : ℚ) / 100000

/-! ## wallet_base.py -/

/-- The `Message` dataclass of `wallet_base.py`: a timestamped message
string. -/
structure Message where
  timestamp : ℚ
  message : String
deriving Repr, DecidableEq

/-- The recognized fields of the `SensorConfig` object, as read by
`getattr(config, name, default)`: an absent field is `none`. -/
structure SensorConfig where
  poll_interval : Option ℚ := none
  primary_asset : Option String := none
  simulate_transfers : Option Bool := none
  provider_url : Option String := none

/-- State of the `WalletBase` Python class: the fields assigned in
`WalletBase.__init__` and mutated by its methods.  `cls` models
`self.__class__.__name__`; `io_provider` models the inputs accumulated by
`IOProvider.add_input` as `(name, message, timestamp)` triples. -/
structure WalletBase where
  cls : String
  io_provider : List (String × String × ℚ) := []
  messages : List Message := []
  POLL_INTERVAL : ℚ := 1/2
  primary_asset : String := "eth"
  balance : ℚ := 0
  balance_previous : ℚ := 0

/-- `WalletBase.__init__`: defaults from the config object. -/
def WalletBase.init (cls : String) (config : SensorConfig) : WalletBase :=
  { cls
    io_provider := []
    messages := []
    POLL_INTERVAL := config.poll_interval.getD (1/2)
    primary_asset := config.primary_asset.getD "eth"
    balance := 0
    balance_previous := 0 }

/-- `WalletBase._poll`, given the value returned by `fetch_balance` for
this cycle (the sleep and the network fetch are abstracted into the
`fetched` argument).  Returns the updated state and the two-element list
`[self.balance, balance_change]`, modelled as a pair. -/
def WalletBase._poll (s : WalletBase) (fetched : ℚ) : WalletBase × (ℚ × ℚ) :=
  let balance := fetched
  let balance_change := balance - s.balance_previous
  ({ s with balance := balance, balance_previous := balance },
   (balance, balance_change))

/-- `WalletBase._raw_to_text`: a positive balance change becomes a
`Message` holding the change formatted with `%.5f`; otherwise `None`.
`now` models `time.time()`. -/
def WalletBase._raw_to_text (now : ℚ) (raw_input : ℚ × ℚ) : Option Message :=
  let balance_change := raw_input.2
  if balance_change > 0 then
    some { timestamp := now, message := renderQ5 balance_change }
  else none

/-- `WalletBase.raw_to_text`: append the pending message, if any, to the
buffer. -/
def WalletBase.raw_to_text (now : ℚ) (s : WalletBase) (raw_input : ℚ × ℚ) :
    WalletBase :=
  match WalletBase._raw_to_text now raw_input with
  | some pending_message => { s with messages := s.messages ++ [pending_message] }
  | none => s

/-- The `transaction_sum` loop of `WalletBase.formatted_latest_buffer`:
`for message in self.messages: transaction_sum += float(message.message)`. -/
def WalletBase.transactionSum (messages : List Message) : ℚ :=
  messages.foldl (fun acc m => acc + pyFloat m.message) 0

/-- The surrounding text block built by `formatted_latest_buffer`. -/
def outputWrap (cls text : String) : String :=
  "\n" ++ cls ++ " INPUT\n// START\n" ++ text ++ "\n// END\n"

/-- `WalletBase.formatted_latest_buffer`: on an empty buffer return
`None`; otherwise sum the buffered amounts, build the single summary
message from the latest timestamp, record it with the IO provider, clear
the buffer and return the formatted block. -/
def WalletBase.formatted_latest_buffer (s : WalletBase) :
    Option String × WalletBase :=
  if s.messages.length = 0 then (none, s)
  else
    let transaction_sum := WalletBase.transactionSum s.messages
    let last_message := s.messages.getLastD { timestamp := 0, message := "" }
    let result_message : Message :=
      { timestamp := last_message.timestamp
        message := "You just received " ++ renderQ5 transaction_sum ++ " " ++
          strUpper s.primary_asset ++ "." }
    let result := outputWrap s.cls result_message.message
    (some result,
     { s with
        messages := []
        io_provider := s.io_provider ++
          [(s.cls, result_message.message, result_message.timestamp)] })

/-- One full input cycle: `_poll` with the fetched balance, then
`raw_to_text` on the emitted sample. -/
def WalletBase.cycle (s : WalletBase) (now fetched : ℚ) : WalletBase :=
  let pr := WalletBase._poll s fetched
  WalletBase.raw_to_text now pr.1 pr.2

/-- Run a sequence of cycles; each sample is a `(time, fetched balance)`
pair. -/
def WalletBase.runCycles (s : WalletBase) (samples : List (ℚ × ℚ)) :
    WalletBase :=
  samples.foldl (fun st p => WalletBase.cycle st p.1 p.2) s

/-- Run a sequence of cycles, also collecting the balance change computed
by `_poll` in each cycle. -/
def WalletBase.runDeltas (s : WalletBase) (samples : List (ℚ × ℚ)) :
    WalletBase × List ℚ :=
  samples.foldl (fun acc p =>
    let pr := WalletBase._poll acc.1 p.2
    (WalletBase.raw_to_text p.1 pr.1 pr.2, acc.2 ++ [pr.2.2])) (s, [])

/-! ## Result dictionaries

The Python methods return loosely structured dicts; the keys that appear
in any branch are modelled as `Option` fields, absent keys as `none`. -/

/-- The dict returned by the `transfer` methods. -/
structure TransferResult where
  transaction_hash : Option String
  status : String
  amount : ℚ
  asset : String
  to_address : String
  from_address : Option String := none
  error : Option String := none

/-- The dict returned by the `sign_message` methods. -/
structure SignResult where
  signature : Option String
  message : String
  address : String
  status : String
  error : Option String := none

/-! ## wallet_ethereum.py

External collaborators (Web3 provider, `eth_account`) are modelled by
oracle records; each `Except` field holds either the response of the
corresponding call or the message of the exception it raises. -/

/-- The environment variables read by `WalletEthereum.__init__`. -/
structure EthEnv where
  ETH_ADDRESS : Option String := none
  ETH_PRIVATE_KEY : Option String := none

/-- Model of an `eth_account` `Account` object.  The address derivation
performed by the external signing library is treated as a black box; the model keeps the
source key and treats the derived address as an abstract string equal to
it. -/
structure EthAccount where
  source_key : String

/-- Model of `Account.from_key`. -/
def EthAccount.from_key (key : String) : EthAccount := { source_key := key }

/-- Model of the `.address` attribute of an `Account`. -/
def EthAccount.address (a : EthAccount) : String := a.source_key

/-- Responses of the Web3 provider during `WalletEthereum.__init__`. -/
structure EthInitNet where
  connected : Bool
  balance_wei : Except String ℤ

/-- Responses of the Web3 provider during one
`WalletEthereum.fetch_balance` call; `dice` models
`random.randint(0, 10)`. -/
structure EthFetchNet where
  block_number : Except String ℤ
  balance_wei : Except String ℤ
  dice : ℕ

/-- Responses of the Web3 provider and local signing during one
`WalletEthereum.transfer` call.  `checksum` is the local
`Web3.to_checksum_address` computation (no network); the remaining fields
are issued in source order: `get_transaction_count`, `gas_price`,
`chain_id`, then `send_raw_transaction` after local signing. -/
structure EthTxNet where
  checksum : Except String String
  nonce : Except String ℕ
  gas_price : Except String ℕ
  chain_id : Except String ℕ
  sign : Except String Unit
  send : Except String String

/-- State of the `WalletEthereum` Python class. -/
structure WalletEthereum where
  base : WalletBase
  PROVIDER_URL : String
  ACCOUNT_ADDRESS : String
  PRIVATE_KEY : Option String
  account : Option EthAccount
  simulate_transfers : Bool

/-- `WalletEthereum.__init__`: a missing `ETH_ADDRESS` falls back to the
hardcoded default address; a missing `ETH_PRIVATE_KEY` leaves
`account = None` (read-only mode); a failed connection or a failing
initial balance read raises. -/
def WalletEthereum.init (config : SensorConfig) (env : EthEnv)
    (net : EthInitNet) : Except String WalletEthereum :=
  let base := WalletBase.init "WalletEthereum" config
  let PROVIDER_URL := config.provider_url.getD "https://eth.llamarpc.com"
  let ACCOUNT_ADDRESS :=
    env.ETH_ADDRESS.getD "0xd8dA6BF26964aF9D7eEd9e03E53415D37aA96045"
  let account := env.ETH_PRIVATE_KEY.map EthAccount.from_key
  let simulate_transfers := config.simulate_transfers.getD false
  if net.connected then
    match net.balance_wei with
    | Except.ok balance_wei =>
      let balance : ℚ := (balance_wei : ℚ) / 1000000000000000000
      Except.ok
        { base := { base with balance := balance, balance_previous := balance }
          PROVIDER_URL := PROVIDER_URL
          ACCOUNT_ADDRESS := ACCOUNT_ADDRESS
          PRIVATE_KEY := env.ETH_PRIVATE_KEY
          account := account
          simulate_transfers := simulate_transfers }
    | Except.error e => Except.error e
  else Except.error ("Failed to connect to Ethereum at " ++ PROVIDER_URL)

/-- `WalletEthereum.fetch_balance`: every exception inside the `try`
block is caught and the last known `self.balance` is returned instead. -/
def WalletEthereum.fetch_balance (w : WalletEthereum) (net : EthFetchNet) :
    ℚ :=
  match net.block_number with
  | Except.error _ => w.base.balance
  | Except.ok _ =>
    match net.balance_wei with
    | Except.error _ => w.base.balance
    | Except.ok balance_wei =>
      let balance_eth : ℚ := (balance_wei : ℚ) / 1000000000000000000
      if w.simulate_transfers then
        if net.dice > 7 then balance_eth + 1 else balance_eth
      else balance_eth

/-- The failure dict built by the `except` branch of
`WalletEthereum.transfer`. -/
def ethTransferFailure (amount : ℚ) (asset to_address e : String) :
    TransferResult :=
  { transaction_hash := none
    status := "failed"
    amount := amount
    asset := asset
    to_address := to_address
    error := some e }

/-- `WalletEthereum.transfer`: with no account configured, fail before
any network call; otherwise resolve checksum address, nonce, gas price
and chain id, sign locally and submit, catching any exception into a
failed result.  The second component lists the network calls issued. -/
def WalletEthereum.transfer (w : WalletEthereum) (net : EthTxNet)
    (to_address : String) (amount : ℚ) (asset : String) :
    TransferResult × List String × WalletEthereum :=
  match w.account with
  | none =>
    ({ transaction_hash := none
       status := "failed"
       amount := amount
       asset := asset
       to_address := to_address
       error := some "No private key configured (read-only mode)" }, [], w)
  | some account =>
    match net.checksum with
    | Except.error e => (ethTransferFailure amount asset to_address e, [], w)
    | Except.ok _ =>
      match net.nonce with
      | Except.error e =>
        (ethTransferFailure amount asset to_address e,
         ["get_transaction_count"], w)
      | Except.ok _ =>
        match net.gas_price with
        | Except.error e =>
          (ethTransferFailure amount asset to_address e,
           ["get_transaction_count", "gas_price"], w)
        | Except.ok _ =>
          match net.chain_id with
          | Except.error e =>
            (ethTransferFailure amount asset to_address e,
             ["get_transaction_count", "gas_price", "chain_id"], w)
          | Except.ok _ =>
            match net.sign with
            | Except.error e =>
              (ethTransferFailure amount asset to_address e,
               ["get_transaction_count", "gas_price", "chain_id"], w)
            | Except.ok _ =>
              match net.send with
              | Except.error e =>
                (ethTransferFailure amount asset to_address e,
                 ["get_transaction_count", "gas_price", "chain_id",
                  "send_raw_transaction"], w)
              | Except.ok tx_hash =>
                ({ transaction_hash := some tx_hash
                   status := "pending"
                   amount := amount
                   asset := asset
                   to_address := to_address
                   from_address := some account.address },
                 ["get_transaction_count", "gas_price", "chain_id",
                  "send_raw_transaction"], w)

/-- `WalletEthereum.sign_message`: signing is local (EIP-191 via
`eth_account`); no network call is issued on any path.  `sig` is the
response of the local signing library. -/
def WalletEthereum.sign_message (w : WalletEthereum)
    (sig : Except String String) (message : String) :
    SignResult × List String × WalletEthereum :=
  match w.account with
  | none =>
    ({ signature := none
       message := message
       address := w.ACCOUNT_ADDRESS
       status := "failed"
       error := some "No private key configured (read-only mode)" }, [], w)
  | some account =>
    match sig with
    | Except.ok signature =>
      ({ signature := some signature
         message := message
         address := account.address
         status := "success" }, [], w)
    | Except.error e =>
      ({ signature := none
         message := message
         address := w.ACCOUNT_ADDRESS
         status := "failed"
         error := some e }, [], w)

/-! ## wallet_solana.py -/

/-- The environment variables read by `WalletSolana.__init__`. -/
structure SolEnv where
  SOLANA_RPC_URL : Option String := none
  SOLANA_WALLET_ADDRESS : Option String := none
  SOLANA_PRIVATE_KEY : Option String := none

/-- Model of a `solders` `Keypair`; the public key derived by the
external library is treated as a black box: the model keeps the source key string. -/
structure SolKeypair where
  source_key : String

/-- Model of `keypair.pubkey()` as an abstract string. -/
def SolKeypair.pubkey (k : SolKeypair) : String := k.source_key

/-- External responses during `WalletSolana.__init__`.  `key_decode_ok`
models whether `base58.b58decode` plus `Keypair.from_bytes` succeed on
the configured private key (a failure is caught and leaves the keypair
absent); `client_ok` models `Client(rpc_url)` construction;
`parse_ok` models `Pubkey.from_string` on the configured address;
`get_balance` is the RPC balance response in lamports (`Except.ok none`
models a response whose `value` is `None`). -/
structure SolInitNet where
  key_decode_ok : Bool
  client_ok : Bool
  parse_ok : Bool
  get_balance : Except String (Option ℤ)

/-- The RPC response during one `WalletSolana.fetch_balance` call. -/
structure SolFetchNet where
  get_balance : Except String (Option ℤ)

/-- External responses during one `WalletSolana.transfer` call.
`parse_ok` is the local `Pubkey.from_string` on the recipient;
`blockhash` and `send` are the two RPC calls issued, in order;
`sign_ok` is the local transaction signing. -/
structure SolTxNet where
  parse_ok : Bool
  blockhash : Except String String
  sign_ok : Bool
  send : Except String String

/-- State of the `WalletSolana` Python class. -/
structure WalletSolana where
  base : WalletBase
  rpc_url : String
  wallet_address : String
  private_key_bytes : Option String
  keypair : Option SolKeypair

/-- `WalletSolana.__init__`: overrides the default primary asset to
`"sol"` when the config does not set one; raises when
`SOLANA_WALLET_ADDRESS` is absent; a bad private key is caught and
degrades to read-only; client construction, address parsing and the
initial balance read raise on failure. -/
def WalletSolana.init (config : SensorConfig) (env : SolEnv)
    (net : SolInitNet) : Except String WalletSolana :=
  let config2 :=
    if config.primary_asset = none then
      { config with primary_asset := some "sol" }
    else config
  let base := WalletBase.init "WalletSolana" config2
  let rpc_url := env.SOLANA_RPC_URL.getD "https://api.mainnet-beta.solana.com"
  match env.SOLANA_WALLET_ADDRESS with
  | none =>
    Except.error "SOLANA_WALLET_ADDRESS environment variable is not set"
  | some wallet_address =>
    let keypair :=
      match env.SOLANA_PRIVATE_KEY with
      | some key => if net.key_decode_ok then some (SolKeypair.mk key) else none
      | none => none
    if net.client_ok then
      if net.parse_ok then
        match net.get_balance with
        | Except.error e => Except.error e
        | Except.ok none =>
          Except.error ("Failed to get balance from Solana RPC: " ++ rpc_url)
        | Except.ok (some lamports) =>
          let balance : ℚ := (lamports : ℚ) / 1000000000
          Except.ok
            { base :=
                { base with balance := balance, balance_previous := balance }
              rpc_url := rpc_url
              wallet_address := wallet_address
              private_key_bytes := env.SOLANA_PRIVATE_KEY
              keypair := keypair }
      else Except.error ("Invalid Solana address: " ++ wallet_address)
    else Except.error ("Failed to construct Solana client: " ++ rpc_url)

/-- `WalletSolana.fetch_balance`: any exception inside the `try` block,
including the `ValueError` raised on a `None` response value, is caught
and the last known `self.balance` is returned. -/
def WalletSolana.fetch_balance (w : WalletSolana) (net : SolFetchNet) : ℚ :=
  match net.get_balance with
  | Except.ok (some lamports) => (lamports : ℚ) / 1000000000
  | _ => w.base.balance

/-- The failure dict built by the `except` branch of
`WalletSolana.transfer`. -/
def solTransferFailure (amount : ℚ) (asset to_address e : String) :
    TransferResult :=
  { transaction_hash := none
    status := "failed"
    amount := amount
    asset := asset
    to_address := to_address
    error := some e }

/-- `WalletSolana.transfer`: with no keypair configured, fail before any
network call; otherwise parse the recipient locally, fetch a recent
blockhash, sign locally and submit, catching any exception into a failed
result.  The second component lists the network calls issued. -/
def WalletSolana.transfer (w : WalletSolana) (net : SolTxNet)
    (to_address : String) (amount : ℚ) (asset : String) :
    TransferResult × List String × WalletSolana :=
  match w.keypair with
  | none =>
    ({ transaction_hash := none
       status := "failed"
       amount := amount
       asset := asset
       to_address := to_address
       error := some "No private key configured (read-only mode)" }, [], w)
  | some keypair =>
    if net.parse_ok then
      match net.blockhash with
      | Except.error e =>
        (solTransferFailure amount asset to_address e,
         ["get_latest_blockhash"], w)
      | Except.ok _ =>
        if net.sign_ok then
          match net.send with
          | Except.error e =>
            (solTransferFailure amount asset to_address e,
             ["get_latest_blockhash", "send_transaction"], w)
          | Except.ok tx_signature =>
            ({ transaction_hash := some tx_signature
               status := "pending"
               amount := amount
               asset := asset
               to_address := to_address
               from_address := some keypair.pubkey },
             ["get_latest_blockhash", "send_transaction"], w)
        else
          (solTransferFailure amount asset to_address "signing failed",
           ["get_latest_blockhash"], w)
    else
      (solTransferFailure amount asset to_address
        ("Invalid recipient address: " ++ to_address), [], w)

/-- `WalletSolana.sign_message`: signing is local; no network call is
issued on any path. -/
def WalletSolana.sign_message (w : WalletSolana)
    (sig : Except String String) (message : String) :
    SignResult × List String × WalletSolana :=
  match w.keypair with
  | none =>
    ({ signature := none
       message := message
       address := w.wallet_address
       status := "failed"
       error := some "No private key configured (read-only mode)" }, [], w)
  | some keypair =>
    match sig with
    | Except.ok signature =>
      ({ signature := some signature
         message := message
         address := keypair.pubkey
         status := "success" }, [], w)
    | Except.error e =>
      ({ signature := none
         message := message
         address := w.wallet_address
         status := "failed"
         error := some e }, [], w)

/-! ## wallet_coinbase.py -/

/-- The environment variables read by `WalletCoinbase.__init__`. -/
structure CBEnv where
  COINBASE_WALLET_ID : Option String := none
  COINBASE_API_KEY : Option String := none
  COINBASE_API_SECRET : Option String := none

/-- Model of a fetched CDP `Wallet` object: its default address and the
per-asset balances it reports. -/
structure CBWallet where
  default_address : String
  balances : String → ℚ

/-- External responses during `WalletCoinbase.__init__`: the result of
`Wallet.fetch`. -/
structure CBInitNet where
  fetch : Except String CBWallet

/-- External responses during one `WalletCoinbase.fetch_balance` call:
the result of the `Wallet.fetch` refresh. -/
structure CBFetchNet where
  fetch : Except String CBWallet

/-- External responses during one `WalletCoinbase.transfer` call:
`transfer_call` is `self.wallet.transfer(...)` returning the transaction
hash of the handle, `wait_ok` is `transfer_result.wait()`. -/
structure CBTxNet where
  transfer_call : Except String String
  wait_ok : Except String Unit

/-- State of the `WalletCoinbase` Python class. -/
structure WalletCoinbase where
  base : WalletBase
  COINBASE_WALLET_ID : Option String
  wallet : CBWallet

/-- `WalletCoinbase.__init__`: missing API credentials raise before any
network call; a missing wallet id raises inside the fetch block; a failed
`Wallet.fetch` raises; the initial balance is then read from the fetched
wallet. -/
def WalletCoinbase.init (config : SensorConfig) (env : CBEnv)
    (net : CBInitNet) : Except String WalletCoinbase :=
  let base := WalletBase.init "WalletCoinbase" config
  match env.COINBASE_API_KEY, env.COINBASE_API_SECRET with
  | some _, some _ =>
    match env.COINBASE_WALLET_ID with
    | none => Except.error "COINBASE_WALLET_ID environment variable is not set"
    | some wallet_id =>
      match net.fetch with
      | Except.error e => Except.error e
      | Except.ok wallet =>
        let balance := wallet.balances base.primary_asset
        Except.ok
          { base :=
              { base with balance := balance, balance_previous := balance }
            COINBASE_WALLET_ID := some wallet_id
            wallet := wallet }
  | _, _ => Except.error "Missing Coinbase API credentials"

/-- `WalletCoinbase.fetch_balance`: refreshes the wallet with
`Wallet.fetch` and reads the balance from it.  There is no `try` block:
a fetch failure propagates to the caller. -/
def WalletCoinbase.fetch_balance (w : WalletCoinbase) (net : CBFetchNet)
    (asset : String) : Except String (ℚ × WalletCoinbase) :=
  match net.fetch with
  | Except.error e => Except.error e
  | Except.ok wallet =>
    Except.ok (wallet.balances asset, { w with wallet := wallet })

/-- `WalletCoinbase.transfer`: no credential check and no amount check;
the CDP transfer call is issued immediately and awaited, and any
exception is caught into a failed result. -/
def WalletCoinbase.transfer (w : WalletCoinbase) (net : CBTxNet)
    (to_address : String) (amount : ℚ) (asset : String) :
    TransferResult × List String × WalletCoinbase :=
  match net.transfer_call with
  | Except.error e =>
    ({ transaction_hash := none
       status := "failed"
       amount := amount
       asset := asset
       to_address := to_address
       error := some e }, ["transfer"], w)
  | Except.ok transaction_hash =>
    match net.wait_ok with
    | Except.error e =>
      ({ transaction_hash := none
         status := "failed"
         amount := amount
         asset := asset
         to_address := to_address
         error := some e }, ["transfer", "wait"], w)
    | Except.ok _ =>
      ({ transaction_hash := some transaction_hash
         status := "completed"
         amount := amount
         asset := asset
         to_address := to_address
         from_address := some w.wallet.default_address },
       ["transfer", "wait"], w)

/-- `WalletCoinbase.sign_message`: the CDP `sign_payload` call is a
network call to the custodial service; any exception is caught into a
failed result. -/
def WalletCoinbase.sign_message (w : WalletCoinbase)
    (sig : Except String String) (message : String) :
    SignResult × List String × WalletCoinbase :=
  match sig with
  | Except.ok signature =>
    ({ signature := some signature
       message := message
       address := w.wallet.default_address
       status := "success" }, ["sign_payload"], w)
  | Except.error e =>
    ({ signature := none
       message := message
       address := w.wallet.default_address
       status := "failed"
       error := some e }, ["sign_payload"], w)

/-! ## Concrete fixtures used by witnesses and counterexamples -/

/-- A default configuration object with no recognized fields set. -/
def demoConfig : SensorConfig := {}

/-- Ethereum environment with address and private key configured. -/
def ethEnvSigner : EthEnv :=
  { ETH_ADDRESS := some "0xA0b1", ETH_PRIVATE_KEY := some "key1" }

/-- Ethereum environment with an address but no private key. -/
def ethEnvNoKey : EthEnv :=
  { ETH_ADDRESS := some "0xA0b1", ETH_PRIVATE_KEY := none }

/-- Ethereum environment with neither address nor private key set. -/
def ethEnvEmpty : EthEnv := {}

/-- A connected Web3 provider reporting an initial balance of 2 ETH. -/
def ethInitNetOk : EthInitNet :=
  { connected := true, balance_wei := Except.ok 2000000000000000000 }

/-- A Web3 provider answering every call of a transfer successfully. -/
def ethTxNetOk : EthTxNet :=
  { checksum := Except.ok "0xB2c3"
    nonce := Except.ok 7
    gas_price := Except.ok 30
    chain_id := Except.ok 1
    sign := Except.ok ()
    send := Except.ok "0xdeadbeef" }

/-- A concrete read-only Ethereum wallet state (no private key). -/
def wEthReadOnly : WalletEthereum :=
  { base := WalletBase.init "WalletEthereum" demoConfig
    PROVIDER_URL := "https://eth.llamarpc.com"
    ACCOUNT_ADDRESS := "0xA0b1"
    PRIVATE_KEY := none
    account := none
    simulate_transfers := false }

/-- A concrete Ethereum wallet state with a signing account. -/
def wEthSigner : WalletEthereum :=
  { wEthReadOnly with
      PRIVATE_KEY := some "key1"
      account := some (EthAccount.from_key "key1") }

/-- A Web3 provider failing every fetch call. -/
def ethFetchNetDown : EthFetchNet :=
  { block_number := Except.error "connection refused"
    balance_wei := Except.error "connection refused"
    dice := 0 }

/-- Solana environment with only the wallet address configured. -/
def solEnvNoKey : SolEnv :=
  { SOLANA_WALLET_ADDRESS := some "EzGf1111" }

/-- Healthy Solana RPC responses for construction, 3 SOL. -/
def solInitNetOk : SolInitNet :=
  { key_decode_ok := true
    client_ok := true
    parse_ok := true
    get_balance := Except.ok (some 3000000000) }

/-- A concrete read-only Solana wallet state. -/
def wSolReadOnly : WalletSolana :=
  { base := { WalletBase.init "WalletSolana" demoConfig with
                primary_asset := "sol" }
    rpc_url := "https://api.mainnet-beta.solana.com"
    wallet_address := "EzGf1111"
    private_key_bytes := none
    keypair := none }

/-- A concrete Solana wallet state with a signing keypair. -/
def wSolSigner : WalletSolana :=
  { wSolReadOnly with
      private_key_bytes := some "key2"
      keypair := some (SolKeypair.mk "key2") }

/-- Coinbase environment with all credentials configured. -/
def cbEnvOk : CBEnv :=
  { COINBASE_WALLET_ID := some "wid-1"
    COINBASE_API_KEY := some "api-key"
    COINBASE_API_SECRET := some "api-secret" }

/-- A fetched CDP wallet whose balance is 5 for every asset. -/
def cbWalletOk : CBWallet :=
  { default_address := "0xCb01", balances := fun _ => 5 }

/-- A CDP service returning `cbWalletOk` on fetch. -/
def cbInitNetOk : CBInitNet := { fetch := Except.ok cbWalletOk }

/-- A concrete Coinbase wallet state. -/
def wCB : WalletCoinbase :=
  { base := { WalletBase.init "WalletCoinbase" demoConfig with
                balance := 5, balance_previous := 5 }
    COINBASE_WALLET_ID := some "wid-1"
    wallet := cbWalletOk }

/-- A buffer state holding two recorded receipt events, used to exercise
the flush path. -/
def wFlushDemo : WalletBase :=
  { WalletBase.init "WalletEthereum" demoConfig with
      messages := [{ timestamp := 1, message := "2.50000" },
                   { timestamp := 2, message := "0.10000" }] }

/-- The scenario start state: asset "eth", initial previous balance 10. -/
def scenarioStart : WalletBase :=
  { WalletBase.init "WalletEthereum" demoConfig with
      balance := 10, balance_previous := 10 }

/-- Scenario cycles 1 to 3: observed balances 10, 10, 12.5. -/
def scenario3 : WalletBase × List ℚ :=
  WalletBase.runDeltas scenarioStart [(1, 10), (2, 10), (3, 25/2)]

/-- The flush performed after scenario cycle 3. -/
def scenario3Flush : Option String × WalletBase :=
  WalletBase.formatted_latest_buffer scenario3.1

/-- Scenario cycles 4 and 5: observed balances 12.5, 11. -/
def scenario5 : WalletBase × List ℚ :=
  WalletBase.runDeltas scenario3Flush.2 [(4, 25/2), (5, 11)]

/-- The flush performed after scenario cycle 5. -/
def scenario5Flush : Option String × WalletBase :=
  WalletBase.formatted_latest_buffer scenario5.1

/-! ## Helper lemmas about the decimal model -/

theorem rhe_intCast (n : ℤ) : rhe (n : ℚ) = n := by
  simp only [rhe, Int.floor_intCast, sub_self]
  norm_num

theorem rhe_small (x : ℚ) (h1 : 0 ≤ x) (h2 : x < 1/2) : rhe x = 0 := by
  have hf : ⌊x⌋ = 0 := by
    rw [Int.floor_eq_zero_iff]
    constructor
    · exact h1
    · linarith
  simp only [rhe, hf, Int.cast_zero, sub_zero]
  rw [if_pos h2]

theorem canon5_add (a b : ℚ) (ha : canon5 a) (hb : canon5 b) :
    canon5 (a + b) := by
  obtain ⟨n, rfl⟩ := ha
  obtain ⟨m, rfl⟩ := hb
  exact ⟨n + m, by push_cast; ring⟩

theorem canon5_sum (l : List ℚ) (h : ∀ x ∈ l, canon5 x) : canon5 l.sum := by
  induction l with
  | nil => exact ⟨0, by norm_num⟩
  | cons hd tl ih =>
    rw [List.sum_cons]
    exact canon5_add hd tl.sum (h hd (by simp))
      (ih fun x hx => h x (by simp [hx]))

theorem round5_canon (q : ℚ) (h : canon5 q) : round5 q = q := by
  obtain ⟨n, rfl⟩ := h
  have h1 : ((n : ℚ)/100000) * 100000 = ((n : ℤ) : ℚ) := by
    push_cast
    field_simp
  rw [round5, h1, rhe_intCast]
  push_cast
  ring

theorem foldl_add_pyFloat (l : List Message) (a : ℚ) :
    l.foldl (fun acc m => acc + pyFloat m.message) a =
      a + (l.map fun m => pyFloat m.message).sum := by
  induction l generalizing a with
  | nil => simp
  | cons hd tl ih => simp [ih, add_assoc]

theorem renderQ5_of_rhe (q : ℚ) (n : ℕ) (h : rhe (q * 100000) = (n : ℤ)) :
    renderQ5 q = Nat.repr (n / 100000) ++ "." ++ pad5 (n % 100000) := by
  simp only [renderQ5, h]
  rw [if_neg (by exact Int.not_lt.mpr (Int.natCast_nonneg n))]
  simp

theorem renderQ5_two_five : renderQ5 (5/2) = "2.50000" := by
  rw [renderQ5_of_rhe (5/2) 250000 (by norm_num [rhe])]
  decide

theorem renderQ5_zero : renderQ5 0 = "0.00000" := by
  rw [renderQ5_of_rhe 0 0 (by norm_num [rhe])]
  decide

theorem renderQ5_small (d : ℚ) (h1 : 0 < d) (h2 : d < 1/200000) :
    renderQ5 d = "0.00000" := by
  have hs : d * 100000 < 1/2 := by
    have := mul_lt_mul_of_pos_right h2 (show (0:ℚ) < 100000 by norm_num)
    calc d * 100000 < 1/200000 * 100000 := this
    _ = 1/2 := by norm_num
  rw [renderQ5_of_rhe d 0 (rhe_small (d * 100000) (by positivity) hs)]
  decide

theorem pyFloat_eq_div (s : String) (a b : List Char)
    (hd : hasDot s.data = true) (hs : splitDot s.data = (a, b)) :
    pyFloat s = (parseNatList a : ℚ) + (parseNatList b : ℚ) / 10 ^ b.length := by
  simp only [pyFloat, hd, if_true, hs]

theorem pyFloat_two_five : pyFloat "2.50000" = 5/2 := by
  rw [pyFloat_eq_div "2.50000" ("2".data) ("50000".data) (by decide) (by decide)]
  norm_num [show parseNatList ("2".data) = 2 from by decide,
    show parseNatList ("50000".data) = 50000 from by decide,
    show ("50000".data).length = 5 from by decide]

theorem pyFloat_zero_one : pyFloat "0.10000" = 1/10 := by
  rw [pyFloat_eq_div "0.10000" ("0".data) ("10000".data) (by decide) (by decide)]
  norm_num [show parseNatList ("0".data) = 0 from by decide,
    show parseNatList ("10000".data) = 10000 from by decide,
    show ("10000".data).length = 5 from by decide]

theorem pyFloat_zero : pyFloat "0.00000" = 0 := by
  rw [pyFloat_eq_div "0.00000" ("0".data) ("00000".data) (by decide) (by decide)]
  norm_num [show parseNatList ("0".data) = 0 from by decide,
    show parseNatList ("00000".data) = 0 from by decide]

/-! ## Helper lemmas about the polling pipeline -/

theorem raw_to_text_balance_previous (now : ℚ) (s : WalletBase) (raw : ℚ × ℚ) :
    (WalletBase.raw_to_text now s raw).balance_previous = s.balance_previous := by
  simp only [WalletBase.raw_to_text]
  split <;> rfl

theorem raw_to_text_cls (now : ℚ) (s : WalletBase) (raw : ℚ × ℚ) :
    (WalletBase.raw_to_text now s raw).cls = s.cls := by
  simp only [WalletBase.raw_to_text]
  split <;> rfl

theorem raw_to_text_primary_asset (now : ℚ) (s : WalletBase) (raw : ℚ × ℚ) :
    (WalletBase.raw_to_text now s raw).primary_asset = s.primary_asset := by
  simp only [WalletBase.raw_to_text]
  split <;> rfl

theorem cycle_balance_previous (s : WalletBase) (t f : ℚ) :
    (WalletBase.cycle s t f).balance_previous = f := by
  simp only [WalletBase.cycle, WalletBase._poll]
  rw [raw_to_text_balance_previous]

/-- C8: flush is idempotent on a drained buffer: after any flush the next
flush returns empty, and a flush on an empty buffer returns empty. -/
theorem flush_idempotent_on_drained (s : WalletBase) :
    (WalletBase.formatted_latest_buffer
        (WalletBase.formatted_latest_buffer s).2).1 = none ∧
    (s.messages = [] → (WalletBase.formatted_latest_buffer s).1 = none) := by
  constructor
  · by_cases h : s.messages.length = 0
    · simp [WalletBase.formatted_latest_buffer, h]
    · simp [WalletBase.formatted_latest_buffer, h]
  · intro h
    simp [WalletBase.formatted_latest_buffer, h]

theorem flush_idempotent_on_drained_witness :
    (WalletBase.formatted_latest_buffer
        (WalletBase.formatted_latest_buffer wFlushDemo).2).1 = none ∧
    (WalletBase.init "WalletEthereum" demoConfig).messages = [] ∧
    (WalletBase.formatted_latest_buffer
        (WalletBase.init "WalletEthereum" demoConfig)).1 = none :=
  ⟨(flush_idempotent_on_drained wFlushDemo).1, rfl,
   (flush_idempotent_on_drained (WalletBase.init "WalletEthereum" demoConfig)).2 rfl⟩

/-- C5: for every sequence of samples fed to one sampler, the stored
previous balance after cycle k equals the k-th fetched value, regardless
of the sign of the delta of that cycle. -/
theorem balance_previous_tracks_last_sample (s : WalletBase)
    (samples : List (ℚ × ℚ)) (k : ℕ) (h : k < samples.length) :
    (WalletBase.runCycles s (samples.take (k+1))).balance_previous =
      (samples.get ⟨k, h⟩).2 := by
  induction samples generalizing s k with
  | nil => simp at h
  | cons hd tl ih =>
    cases k with
    | zero =>
      simp [WalletBase.runCycles, cycle_balance_previous]
    | succ k =>
      have h2 : k < tl.length := Nat.lt_of_succ_lt_succ h
      simpa [WalletBase.runCycles] using
        ih (WalletBase.cycle s hd.1 hd.2) k h2

theorem balance_previous_tracks_last_sample_witness :
    (WalletBase.runCycles scenarioStart [(1, 10), (2, 12)]).balance_previous
      = 12 := by
  have h := balance_previous_tracks_last_sample scenarioStart
    [(1, 10), (2, 12)] 1 (by simp)
  simpa using h

/-- C1: on a non-empty buffer of recorded receipt events, flush returns
the summary whose reported amount is the exact arithmetic sum of all
recorded amounts (none dropped, none double-counted: the sum ranges once
over the whole buffer, and the final five-decimal formatting is lossless
on it), and clears the buffer. -/
theorem flush_reports_exact_sum (s : WalletBase) (h : s.messages ≠ [])
    (hc : ∀ m ∈ s.messages, canon5 (pyFloat m.message)) :
    (WalletBase.formatted_latest_buffer s).1 =
      some (outputWrap s.cls ("You just received " ++
        renderQ5 (WalletBase.transactionSum s.messages) ++ " " ++
        strUpper s.primary_asset ++ ".")) ∧
    round5 (WalletBase.transactionSum s.messages) =
      WalletBase.transactionSum s.messages ∧
    WalletBase.transactionSum s.messages =
      (s.messages.map fun m => pyFloat m.message).sum ∧
    (WalletBase.formatted_latest_buffer s).2.messages = [] := by
  have hlen : ¬ s.messages.length = 0 := by
    simpa [List.length_eq_zero] using h
  have hsum : WalletBase.transactionSum s.messages =
      (s.messages.map fun m => pyFloat m.message).sum := by
    simpa [WalletBase.transactionSum] using foldl_add_pyFloat s.messages 0
  refine ⟨?_, ?_, hsum, ?_⟩
  · simp [WalletBase.formatted_latest_buffer, hlen]
  · apply round5_canon
    rw [hsum]
    apply canon5_sum
    intro x hx
    obtain ⟨m, hm, rfl⟩ := List.mem_map.mp hx
    exact hc m hm
  · simp [WalletBase.formatted_latest_buffer, hlen]

theorem flush_reports_exact_sum_witness :
    wFlushDemo.messages ≠ [] ∧
    ((WalletBase.formatted_latest_buffer wFlushDemo).1 =
      some (outputWrap wFlushDemo.cls ("You just received " ++
        renderQ5 (WalletBase.transactionSum wFlushDemo.messages) ++ " " ++
        strUpper wFlushDemo.primary_asset ++ ".")) ∧
    round5 (WalletBase.transactionSum wFlushDemo.messages) =
      WalletBase.transactionSum wFlushDemo.messages ∧
    WalletBase.transactionSum wFlushDemo.messages =
      (wFlushDemo.messages.map fun m => pyFloat m.message).sum ∧
    (WalletBase.formatted_latest_buffer wFlushDemo).2.messages = []) := by
  have hne : wFlushDemo.messages ≠ [] := by
    simp [wFlushDemo]
  have hc : ∀ m ∈ wFlushDemo.messages, canon5 (pyFloat m.message) := by
    intro m hm
    simp [wFlushDemo] at hm
    rcases hm with h1 | h1 <;> subst h1
    · exact ⟨250000, by rw [pyFloat_two_five]; norm_num⟩
    · exact ⟨10000, by rw [pyFloat_zero_one]; norm_num⟩
  exact ⟨hne, flush_reports_exact_sum wFlushDemo hne hc⟩

/-! ## Frame lemmas: transfer and sign_message do not touch sampler or
buffer state -/

theorem eth_transfer_frame (w : WalletEthereum) (b : WalletBase)
    (net : EthTxNet) (to_address : String) (amount : ℚ) (asset : String) :
    (WalletEthereum.transfer w net to_address amount asset).2.2 = w ∧
    (WalletEthereum.transfer { w with base := b } net to_address amount
        asset).1 =
      (WalletEthereum.transfer w net to_address amount asset).1 ∧
    (WalletEthereum.transfer { w with base := b } net to_address amount
        asset).2.1 =
      (WalletEthereum.transfer w net to_address amount asset).2.1 := by
  obtain ⟨base, purl, addr, pk, acc, sim⟩ := w
  obtain ⟨c, n1, g, ci, sg, sd⟩ := net
  cases acc <;> cases c <;> cases n1 <;> cases g <;> cases ci <;>
    cases sg <;> cases sd <;>
    exact ⟨rfl, rfl, rfl⟩

theorem eth_sign_frame (w : WalletEthereum) (b : WalletBase)
    (sig : Except String String) (m : String) :
    (WalletEthereum.sign_message w sig m).2.2 = w ∧
    (WalletEthereum.sign_message { w with base := b } sig m).1 =
      (WalletEthereum.sign_message w sig m).1 ∧
    (WalletEthereum.sign_message { w with base := b } sig m).2.1 =
      (WalletEthereum.sign_message w sig m).2.1 := by
  obtain ⟨base, purl, addr, pk, acc, sim⟩ := w
  cases acc <;> cases sig <;> exact ⟨rfl, rfl, rfl⟩

theorem sol_transfer_frame (w : WalletSolana) (b : WalletBase)
    (net : SolTxNet) (to_address : String) (amount : ℚ) (asset : String) :
    (WalletSolana.transfer w net to_address amount asset).2.2 = w ∧
    (WalletSolana.transfer { w with base := b } net to_address amount
        asset).1 =
      (WalletSolana.transfer w net to_address amount asset).1 ∧
    (WalletSolana.transfer { w with base := b } net to_address amount
        asset).2.1 =
      (WalletSolana.transfer w net to_address amount asset).2.1 := by
  obtain ⟨base, rpc, addr, pk, kp⟩ := w
  obtain ⟨po, bh, so, sd⟩ := net
  cases kp <;> cases po <;> cases bh <;> cases so <;> cases sd <;>
    exact ⟨rfl, rfl, rfl⟩

theorem sol_sign_frame (w : WalletSolana) (b : WalletBase)
    (sig : Except String String) (m : String) :
    (WalletSolana.sign_message w sig m).2.2 = w ∧
    (WalletSolana.sign_message { w with base := b } sig m).1 =
      (WalletSolana.sign_message w sig m).1 ∧
    (WalletSolana.sign_message { w with base := b } sig m).2.1 =
      (WalletSolana.sign_message w sig m).2.1 := by
  obtain ⟨base, rpc, addr, pk, kp⟩ := w
  cases kp <;> cases sig <;> exact ⟨rfl, rfl, rfl⟩

theorem cb_transfer_frame (w : WalletCoinbase) (b : WalletBase)
    (net : CBTxNet) (to_address : String) (amount : ℚ) (asset : String) :
    (WalletCoinbase.transfer w net to_address amount asset).2.2 = w ∧
    (WalletCoinbase.transfer { w with base := b } net to_address amount
        asset).1 =
      (WalletCoinbase.transfer w net to_address amount asset).1 ∧
    (WalletCoinbase.transfer { w with base := b } net to_address amount
        asset).2.1 =
      (WalletCoinbase.transfer w net to_address amount asset).2.1 := by
  obtain ⟨base, wid, wal⟩ := w
  obtain ⟨tc, wo⟩ := net
  cases tc <;> cases wo <;> exact ⟨rfl, rfl, rfl⟩

theorem cb_sign_frame (w : WalletCoinbase) (b : WalletBase)
    (sig : Except String String) (m : String) :
    (WalletCoinbase.sign_message w sig m).2.2 = w ∧
    (WalletCoinbase.sign_message { w with base := b } sig m).1 =
      (WalletCoinbase.sign_message w sig m).1 ∧
    (WalletCoinbase.sign_message { w with base := b } sig m).2.1 =
      (WalletCoinbase.sign_message w sig m).2.1 := by
  obtain ⟨base, wid, wal⟩ := w
  cases sig <;> exact ⟨rfl, rfl, rfl⟩

/-- C9: for every backend variant, `transfer` and `sign_message` leave
the balance-diff state and the event buffer unchanged (the returned
wallet state is the input state), and neither the result nor the list of
issued network calls depends on that state (replacing the whole
`WalletBase` part changes nothing). -/
theorem transfer_sign_frame :
    (∀ (w : WalletEthereum) (b : WalletBase) (net : EthTxNet)
        (to_address : String) (amount : ℚ) (asset : String),
      (WalletEthereum.transfer w net to_address amount asset).2.2 = w ∧
      (WalletEthereum.transfer { w with base := b } net to_address amount
          asset).1 =
        (WalletEthereum.transfer w net to_address amount asset).1 ∧
      (WalletEthereum.transfer { w with base := b } net to_address amount
          asset).2.1 =
        (WalletEthereum.transfer w net to_address amount asset).2.1) ∧
    (∀ (w : WalletEthereum) (b : WalletBase) (sig : Except String String)
        (m : String),
      (WalletEthereum.sign_message w sig m).2.2 = w ∧
      (WalletEthereum.sign_message { w with base := b } sig m).1 =
        (WalletEthereum.sign_message w sig m).1 ∧
      (WalletEthereum.sign_message { w with base := b } sig m).2.1 =
        (WalletEthereum.sign_message w sig m).2.1) ∧
    (∀ (w : WalletSolana) (b : WalletBase) (net : SolTxNet)
        (to_address : String) (amount : ℚ) (asset : String),
      (WalletSolana.transfer w net to_address amount asset).2.2 = w ∧
      (WalletSolana.transfer { w with base := b } net to_address amount
          asset).1 =
        (WalletSolana.transfer w net to_address amount asset).1 ∧
      (WalletSolana.transfer { w with base := b } net to_address amount
          asset).2.1 =
        (WalletSolana.transfer w net to_address amount asset).2.1) ∧
    (∀ (w : WalletSolana) (b : WalletBase) (sig : Except String String)
        (m : String),
      (WalletSolana.sign_message w sig m).2.2 = w ∧
      (WalletSolana.sign_message { w with base := b } sig m).1 =
        (WalletSolana.sign_message w sig m).1 ∧
      (WalletSolana.sign_message { w with base := b } sig m).2.1 =
        (WalletSolana.sign_message w sig m).2.1) ∧
    (∀ (w : WalletCoinbase) (b : WalletBase) (net : CBTxNet)
        (to_address : String) (amount : ℚ) (asset : String),
      (WalletCoinbase.transfer w net to_address amount asset).2.2 = w ∧
      (WalletCoinbase.transfer { w with base := b } net to_address amount
          asset).1 =
        (WalletCoinbase.transfer w net to_address amount asset).1 ∧
      (WalletCoinbase.transfer { w with base := b } net to_address amount
          asset).2.1 =
        (WalletCoinbase.transfer w net to_address amount asset).2.1) ∧
    (∀ (w : WalletCoinbase) (b : WalletBase) (sig : Except String String)
        (m : String),
      (WalletCoinbase.sign_message w sig m).2.2 = w ∧
      (WalletCoinbase.sign_message { w with base := b } sig m).1 =
        (WalletCoinbase.sign_message w sig m).1 ∧
      (WalletCoinbase.sign_message { w with base := b } sig m).2.1 =
        (WalletCoinbase.sign_message w sig m).2.1) :=
  ⟨eth_transfer_frame, eth_sign_frame, sol_transfer_frame, sol_sign_frame,
   cb_transfer_frame, cb_sign_frame⟩

/-- C2 counterexample: after a successful construction, the Coinbase
backend propagates a balance-fetch network failure to the caller instead
of returning the last known balance. -/
theorem coinbase_fetch_propagates :
    (WalletCoinbase.init demoConfig cbEnvOk cbInitNetOk).map
      (fun w => w.COINBASE_WALLET_ID) = Except.ok (some "wid-1") ∧
    ((WalletCoinbase.init demoConfig cbEnvOk cbInitNetOk).bind fun w =>
      WalletCoinbase.fetch_balance w { fetch := Except.error "network down" }
        "eth") = Except.error "network down" :=
  ⟨rfl, rfl⟩

/-- C2 (amended): the Ethereum and Solana backends recover a
balance-fetch network failure locally by returning the last known
balance; the Coinbase backend instead propagates the fetch error to the
caller. -/
theorem fetch_balance_failure_recovery :
    (∀ (w : WalletEthereum) (net : EthFetchNet) (e : String),
        net.block_number = Except.error e →
        WalletEthereum.fetch_balance w net = w.base.balance) ∧
    (∀ (w : WalletEthereum) (net : EthFetchNet) (bn : ℤ) (e : String),
        net.block_number = Except.ok bn →
        net.balance_wei = Except.error e →
        WalletEthereum.fetch_balance w net = w.base.balance) ∧
    (∀ (w : WalletSolana) (net : SolFetchNet) (e : String),
        net.get_balance = Except.error e →
        WalletSolana.fetch_balance w net = w.base.balance) ∧
    (∀ (w : WalletSolana) (net : SolFetchNet),
        net.get_balance = Except.ok none →
        WalletSolana.fetch_balance w net = w.base.balance) ∧
    (∀ (w : WalletCoinbase) (e asset : String),
        WalletCoinbase.fetch_balance w { fetch := Except.error e } asset =
          Except.error e) := by
  refine ⟨?_, ?_, ?_, ?_, ?_⟩
  · intro w net e h
    simp [WalletEthereum.fetch_balance, h]
  · intro w net bn e h1 h2
    simp [WalletEthereum.fetch_balance, h1, h2]
  · intro w net e h
    simp [WalletSolana.fetch_balance, h]
  · intro w net h
    simp [WalletSolana.fetch_balance, h]
  · intro w e asset
    simp [WalletCoinbase.fetch_balance]

theorem fetch_balance_failure_recovery_witness :
    ethFetchNetDown.block_number = Except.error "connection refused" ∧
    WalletEthereum.fetch_balance wEthReadOnly ethFetchNetDown =
      wEthReadOnly.base.balance :=
  ⟨rfl, fetch_balance_failure_recovery.1 wEthReadOnly ethFetchNetDown
    "connection refused" rfl⟩

/-- C4: every backend variant constructed without a signing credential
answers `transfer` with a failed result whose error names the missing
credential, issuing no network call; for Coinbase, construction without
the API credential pair fails outright, so no such instance exists. -/
theorem readonly_transfer_no_network :
    (∀ (config : SensorConfig) (env : EthEnv) (net : EthInitNet)
        (w : WalletEthereum), env.ETH_PRIVATE_KEY = none →
        WalletEthereum.init config env net = Except.ok w →
        w.account = none) ∧
    (∀ (w : WalletEthereum) (net : EthTxNet) (to_address : String)
        (amount : ℚ) (asset : String), w.account = none →
        (WalletEthereum.transfer w net to_address amount asset).1.status =
          "failed" ∧
        (WalletEthereum.transfer w net to_address amount asset).1.error =
          some "No private key configured (read-only mode)" ∧
        (WalletEthereum.transfer w net to_address amount asset).2.1 = []) ∧
    (∀ (config : SensorConfig) (env : SolEnv) (net : SolInitNet)
        (w : WalletSolana), env.SOLANA_PRIVATE_KEY = none →
        WalletSolana.init config env net = Except.ok w →
        w.keypair = none) ∧
    (∀ (w : WalletSolana) (net : SolTxNet) (to_address : String)
        (amount : ℚ) (asset : String), w.keypair = none →
        (WalletSolana.transfer w net to_address amount asset).1.status =
          "failed" ∧
        (WalletSolana.transfer w net to_address amount asset).1.error =
          some "No private key configured (read-only mode)" ∧
        (WalletSolana.transfer w net to_address amount asset).2.1 = []) ∧
    (∀ (config : SensorConfig) (env : CBEnv) (net : CBInitNet),
        env.COINBASE_API_KEY = none ∨ env.COINBASE_API_SECRET = none →
        WalletCoinbase.init config env net =
          Except.error "Missing Coinbase API credentials") := by
  refine ⟨?_, ?_, ?_, ?_, ?_⟩
  · intro config env net w h hinit
    simp only [WalletEthereum.init, h] at hinit
    split at hinit
    · split at hinit
      · cases hinit
        rfl
      · exact absurd hinit (by simp)
    · exact absurd hinit (by simp)
  · intro w net to_address amount asset h
    refine ⟨?_, ?_, ?_⟩ <;> simp [WalletEthereum.transfer, h]
  · intro config env net w h hinit
    simp only [WalletSolana.init, h] at hinit
    split at hinit
    · exact absurd hinit (by simp)
    · split at hinit
      · split at hinit
        · split at hinit
          · exact absurd hinit (by simp)
          · exact absurd hinit (by simp)
          · cases hinit
            rfl
        · exact absurd hinit (by simp)
      · exact absurd hinit (by simp)
  · intro w net to_address amount asset h
    refine ⟨?_, ?_, ?_⟩ <;> simp [WalletSolana.transfer, h]
  · intro config env net h
    obtain ⟨wid, key, sct⟩ := env
    rcases h with h | h
    · simp only at h
      subst h
      simp [WalletCoinbase.init]
    · simp only at h
      subst h
      cases key <;> simp [WalletCoinbase.init]

theorem readonly_transfer_no_network_witness :
    wEthReadOnly.account = none ∧
    ((WalletEthereum.transfer wEthReadOnly ethTxNetOk "0xB2c3" 1
        "eth").1.status = "failed" ∧
      (WalletEthereum.transfer wEthReadOnly ethTxNetOk "0xB2c3" 1
        "eth").1.error =
        some "No private key configured (read-only mode)" ∧
      (WalletEthereum.transfer wEthReadOnly ethTxNetOk "0xB2c3" 1
        "eth").2.1 = []) :=
  ⟨rfl, readonly_transfer_no_network.2.1 wEthReadOnly ethTxNetOk "0xB2c3" 1
    "eth" rfl⟩

/-- C3 counterexample: an Ethereum wallet constructed with a signing key
accepts `transfer` with `amount = 0`: the call is not rejected by any
validation, returns status `pending`, and issues the full sequence of
network calls. -/
theorem transfer_zero_not_validated :
    (WalletEthereum.init demoConfig ethEnvSigner ethInitNetOk).map
      (fun w =>
        ((WalletEthereum.transfer w ethTxNetOk "0xB2c3" 0 "eth").1.status,
         (WalletEthereum.transfer w ethTxNetOk "0xB2c3" 0 "eth").2.1)) =
    Except.ok ("pending",
      ["get_transaction_count", "gas_price", "chain_id",
       "send_raw_transaction"]) := rfl

/-- C3 (amended): no backend variant validates `amount = 0`.  A backend
without a signing credential fails before any network call irrespective
of the amount; a backend with a signing credential proceeds with a
zero-amount transfer and issues its network calls (Ethereum and Solana
return status `pending`, Coinbase returns `completed`). -/
theorem transfer_zero_amended :
    (∀ (w : WalletEthereum) (net : EthTxNet) (to_address asset : String),
        w.account = none →
        (WalletEthereum.transfer w net to_address 0 asset).1.status =
          "failed" ∧
        (WalletEthereum.transfer w net to_address 0 asset).2.1 = []) ∧
    (∀ (w : WalletEthereum) (a : EthAccount) (c : String) (n1 g ci : ℕ)
        (tx to_address asset : String), w.account = some a →
        (WalletEthereum.transfer w
            { checksum := Except.ok c, nonce := Except.ok n1,
              gas_price := Except.ok g, chain_id := Except.ok ci,
              sign := Except.ok (), send := Except.ok tx }
            to_address 0 asset).1.status = "pending" ∧
        (WalletEthereum.transfer w
            { checksum := Except.ok c, nonce := Except.ok n1,
              gas_price := Except.ok g, chain_id := Except.ok ci,
              sign := Except.ok (), send := Except.ok tx }
            to_address 0 asset).2.1 =
          ["get_transaction_count", "gas_price", "chain_id",
           "send_raw_transaction"]) ∧
    (∀ (w : WalletSolana) (net : SolTxNet) (to_address asset : String),
        w.keypair = none →
        (WalletSolana.transfer w net to_address 0 asset).1.status =
          "failed" ∧
        (WalletSolana.transfer w net to_address 0 asset).2.1 = []) ∧
    (∀ (w : WalletSolana) (k : SolKeypair) (bh tx to_address asset : String),
        w.keypair = some k →
        (WalletSolana.transfer w
            { parse_ok := true, blockhash := Except.ok bh, sign_ok := true,
              send := Except.ok tx } to_address 0 asset).1.status =
          "pending" ∧
        (WalletSolana.transfer w
            { parse_ok := true, blockhash := Except.ok bh, sign_ok := true,
              send := Except.ok tx } to_address 0 asset).2.1 =
          ["get_latest_blockhash", "send_transaction"]) ∧
    (∀ (w : WalletCoinbase) (tx to_address asset : String),
        (WalletCoinbase.transfer w
            { transfer_call := Except.ok tx, wait_ok := Except.ok () }
            to_address 0 asset).1.status = "completed" ∧
        (WalletCoinbase.transfer w
            { transfer_call := Except.ok tx, wait_ok := Except.ok () }
            to_address 0 asset).2.1 = ["transfer", "wait"]) := by
  refine ⟨?_, ?_, ?_, ?_, ?_⟩
  · intro w net to_address asset h
    exact ⟨by simp [WalletEthereum.transfer, h],
           by simp [WalletEthereum.transfer, h]⟩
  · intro w a c n1 g ci tx to_address asset h
    exact ⟨by simp [WalletEthereum.transfer, h],
           by simp [WalletEthereum.transfer, h]⟩
  · intro w net to_address asset h
    exact ⟨by simp [WalletSolana.transfer, h],
           by simp [WalletSolana.transfer, h]⟩
  · intro w k bh tx to_address asset h
    exact ⟨by simp [WalletSolana.transfer, h],
           by simp [WalletSolana.transfer, h]⟩
  · intro w tx to_address asset
    exact ⟨by simp [WalletCoinbase.transfer],
           by simp [WalletCoinbase.transfer]⟩

theorem transfer_zero_amended_witness :
    wEthSigner.account = some (EthAccount.from_key "key1") ∧
    ((WalletEthereum.transfer wEthSigner
        { checksum := Except.ok "0xB2c3", nonce := Except.ok 7,
          gas_price := Except.ok 30, chain_id := Except.ok 1,
          sign := Except.ok (), send := Except.ok "0xdeadbeef" }
        "0xB2c3" 0 "eth").1.status = "pending" ∧
      (WalletEthereum.transfer wEthSigner
        { checksum := Except.ok "0xB2c3", nonce := Except.ok 7,
          gas_price := Except.ok 30, chain_id := Except.ok 1,
          sign := Except.ok (), send := Except.ok "0xdeadbeef" }
        "0xB2c3" 0 "eth").2.1 =
        ["get_transaction_count", "gas_price", "chain_id",
         "send_raw_transaction"]) :=
  ⟨rfl, transfer_zero_amended.2.1 wEthSigner (EthAccount.from_key "key1")
    "0xB2c3" 7 30 1 "0xdeadbeef" "0xB2c3" "eth" rfl⟩

/-- C7 counterexample: the Ethereum backend constructed with no
`ETH_ADDRESS` in the environment does not fail: construction succeeds and
silently falls back to the hardcoded default address. -/
theorem ethereum_default_address :
    ethEnvEmpty.ETH_ADDRESS = none ∧
    (WalletEthereum.init demoConfig ethEnvEmpty ethInitNetOk).map
      (fun w => w.ACCOUNT_ADDRESS) =
    Except.ok "0xd8dA6BF26964aF9D7eEd9e03E53415D37aA96045" :=
  ⟨rfl, rfl⟩

/-- C7 (amended): for the Solana and Coinbase backends, absence of the
required account identifier at construction time fails construction
fatally; the Ethereum backend instead falls back to a hardcoded default
address and constructs successfully when `ETH_ADDRESS` is absent. -/
theorem missing_identifier_amended :
    (∀ (config : SensorConfig) (env : SolEnv) (net : SolInitNet),
        env.SOLANA_WALLET_ADDRESS = none →
        WalletSolana.init config env net =
          Except.error
            "SOLANA_WALLET_ADDRESS environment variable is not set") ∧
    (∀ (config : SensorConfig) (env : CBEnv) (net : CBInitNet)
        (k sct : String),
        env.COINBASE_API_KEY = some k → env.COINBASE_API_SECRET = some sct →
        env.COINBASE_WALLET_ID = none →
        WalletCoinbase.init config env net =
          Except.error
            "COINBASE_WALLET_ID environment variable is not set") ∧
    (∀ (config : SensorConfig) (env : EthEnv) (net : EthInitNet)
        (w : WalletEthereum), env.ETH_ADDRESS = none →
        WalletEthereum.init config env net = Except.ok w →
        w.ACCOUNT_ADDRESS = "0xd8dA6BF26964aF9D7eEd9e03E53415D37aA96045") := by
  refine ⟨?_, ?_, ?_⟩
  · intro config env net h
    simp [WalletSolana.init, h]
  · intro config env net k sct h1 h2 h3
    simp [WalletCoinbase.init, h1, h2, h3]
  · intro config env net w h hinit
    simp only [WalletEthereum.init, h] at hinit
    split at hinit
    · split at hinit
      · cases hinit
        rfl
      · exact absurd hinit (by simp)
    · exact absurd hinit (by simp)

theorem missing_identifier_amended_witness :
    ({} : SolEnv).SOLANA_WALLET_ADDRESS = none ∧
    WalletSolana.init demoConfig {} solInitNetOk =
      Except.error "SOLANA_WALLET_ADDRESS environment variable is not set" :=
  ⟨rfl, missing_identifier_amended.1 demoConfig {} solInitNetOk rfl⟩

/-! ## Helper facts for the concrete scenarios -/

theorem strUpper_eth : strUpper "eth" = "ETH" := by decide

theorem strUpper_sol : strUpper "sol" = "SOL" := by decide

/-- C10: a positive delta strictly below `0.000005` still records an
event (the buffer becomes non-empty), but the stored amount is the
string `0.00000`, which contributes zero to the reported sum, so the
following flush reports a received amount of `0.00000`. -/
theorem tiny_positive_delta_event (d : ℚ) (h1 : 0 < d) (h2 : d < 1/200000)
    (s : WalletBase) (hm : s.messages = []) (now : ℚ) :
    (WalletBase.cycle s now (s.balance_previous + d)).messages =
      [{ timestamp := now, message := "0.00000" }] ∧
    WalletBase.transactionSum
      (WalletBase.cycle s now (s.balance_previous + d)).messages = 0 ∧
    (WalletBase.formatted_latest_buffer
        (WalletBase.cycle s now (s.balance_previous + d))).1 =
      some (outputWrap s.cls ("You just received 0.00000 " ++
        strUpper s.primary_asset ++ ".")) := by
  have hd : s.balance_previous + d - s.balance_previous = d := by ring
  have hpos : s.balance_previous + d - s.balance_previous > 0 := by
    rw [hd]; exact h1
  have hrq : renderQ5 (s.balance_previous + d - s.balance_previous) =
      "0.00000" := by
    rw [hd]; exact renderQ5_small d h1 h2
  have hc : WalletBase.cycle s now (s.balance_previous + d) =
      { s with balance := s.balance_previous + d
               balance_previous := s.balance_previous + d
               messages :=
                 s.messages ++ [{ timestamp := now, message := "0.00000" }] } := by
    simp only [WalletBase.cycle, WalletBase._poll, WalletBase.raw_to_text,
      WalletBase._raw_to_text]
    rw [if_pos hpos, hrq]
  refine ⟨?_, ?_, ?_⟩
  · rw [hc]
    simp [hm]
  · rw [hc]
    simp [hm, WalletBase.transactionSum, pyFloat_zero]
  · rw [hc]
    have hstr : ("You just received " ++ "0.00000" ++ " " : String) =
        "You just received 0.00000 " := by decide
    simp [hm, WalletBase.formatted_latest_buffer, WalletBase.transactionSum,
      pyFloat_zero, renderQ5_zero, hstr]

theorem tiny_positive_delta_event_witness :
    (0 : ℚ) < 1/1000000 ∧ (1/1000000 : ℚ) < 1/200000 ∧
    (WalletBase.init "WalletEthereum" demoConfig).messages = [] ∧
    ((WalletBase.cycle (WalletBase.init "WalletEthereum" demoConfig) 9
        ((WalletBase.init "WalletEthereum" demoConfig).balance_previous +
          1/1000000)).messages =
      [{ timestamp := 9, message := "0.00000" }] ∧
    WalletBase.transactionSum
      (WalletBase.cycle (WalletBase.init "WalletEthereum" demoConfig) 9
        ((WalletBase.init "WalletEthereum" demoConfig).balance_previous +
          1/1000000)).messages = 0 ∧
    (WalletBase.formatted_latest_buffer
        (WalletBase.cycle (WalletBase.init "WalletEthereum" demoConfig) 9
          ((WalletBase.init "WalletEthereum" demoConfig).balance_previous +
            1/1000000))).1 =
      some (outputWrap (WalletBase.init "WalletEthereum" demoConfig).cls
        ("You just received 0.00000 " ++
          strUpper (WalletBase.init "WalletEthereum" demoConfig).primary_asset
          ++ "."))) :=
  ⟨by norm_num, by norm_num, rfl,
   tiny_positive_delta_event (1/1000000) (by norm_num) (by norm_num)
     (WalletBase.init "WalletEthereum" demoConfig) rfl 9⟩

/-- C6: over the balance sequence 10, 10, 12.5, 12.5, 11 on asset "eth"
(initial previous balance 10), the computed deltas are 0, 0, 2.5, 0,
-1.5; the flush after cycle 3 reports "You just received 2.50000 ETH.";
the negative delta of cycle 5 records no event and the following flush is
empty. -/
theorem scenario_five_cycles :
    scenario3.2 = [0, 0, 5/2] ∧
    scenario3Flush.1 = some
      "\nWalletEthereum INPUT\n// START\nYou just received 2.50000 ETH.\n// END\n" ∧
    scenario5.2 = [0, -3/2] ∧
    scenario5.1.messages = [] ∧
    scenario5Flush.1 = none := by
  have hs3 : scenario3 =
      ({ scenarioStart with
           balance := 25/2, balance_previous := 25/2
           messages := [{ timestamp := 3, message := "2.50000" }] },
       [0, 0, 5/2]) := by
    norm_num [scenario3, WalletBase.runDeltas, scenarioStart, WalletBase.init,
      demoConfig, WalletBase._poll, WalletBase.raw_to_text,
      WalletBase._raw_to_text, renderQ5_two_five]
  have hs3f : scenario3Flush =
      (some
        "\nWalletEthereum INPUT\n// START\nYou just received 2.50000 ETH.\n// END\n",
       { scenarioStart with
           balance := 25/2, balance_previous := 25/2
           messages := []
           io_provider :=
             [("WalletEthereum", "You just received 2.50000 ETH.", 3)] }) := by
    rw [scenario3Flush, hs3]
    norm_num [WalletBase.formatted_latest_buffer, WalletBase.transactionSum,
      pyFloat_two_five, renderQ5_two_five, strUpper_eth, scenarioStart,
      WalletBase.init, demoConfig, outputWrap]
    decide
  have hs5 : scenario5 =
      ({ scenarioStart with
           balance := 11, balance_previous := 11
           messages := []
           io_provider :=
             [("WalletEthereum", "You just received 2.50000 ETH.", 3)] },
       [0, -3/2]) := by
    rw [scenario5, hs3f]
    norm_num [WalletBase.runDeltas, WalletBase._poll, WalletBase.raw_to_text,
      WalletBase._raw_to_text, scenarioStart, WalletBase.init, demoConfig]
  refine ⟨?_, ?_, ?_, ?_, ?_⟩
  · rw [hs3]
  · rw [hs3f]
  · rw [hs5]
  · rw [hs5]
  · rw [scenario5Flush, hs5]
    norm_num [WalletBase.formatted_latest_buffer]
